import Mathlib

/-
Verification of the ERP AI-service forecasting core
(apps/ai-service/app/models/forecaster.py).

The Python module computes with floats; we embed its arithmetic over an
ordered field: ℚ where every operation is rational (Holt smoothing, the
seasonal analyzer) and ℝ where square roots or sines occur (safety stock,
confidence intervals, the forecast pipeline).  Python's built-in round
(round half to even, with an optional digit count) is modelled exactly by
pyRound / roundTo below.  Randomness (np.random.uniform / normal draws)
is passed in as explicit parameters, and calendar dates are modelled as
absolute day numbers (an integer), with weekday and day-of-year as simple
modular functions of the day number; none of the verified properties
depend on the particular calendar mapping.
-/

namespace ERP

/-! ## Python rounding (round half to even) -/

/-- Python's round(x) for a real/rational x: nearest integer, ties to even. -/
def pyRound {α : Type} [LinearOrderedField α] [FloorRing α] (x : α) : ℤ :=
  if x - ⌊x⌋ < 1 / 2 then ⌊x⌋
  else if 1 / 2 < x - ⌊x⌋ then ⌊x⌋ + 1
  else if ⌊x⌋ % 2 = 0 then ⌊x⌋ else ⌊x⌋ + 1

/-- Python's round(x, n): round to n decimal digits. -/
def roundTo {α : Type} [LinearOrderedField α] [FloorRing α] (n : ℕ) (x : α) : α :=
  ((pyRound (x * (10 : α) ^ n) : ℤ) : α) / (10 : α) ^ n

variable {α : Type} [LinearOrderedField α] [FloorRing α]

theorem floor_le_pyRound (x : α) : ⌊x⌋ ≤ pyRound x := by
  unfold pyRound; split_ifs <;> omega

theorem pyRound_le_floor_add_one (x : α) : pyRound x ≤ ⌊x⌋ + 1 := by
  unfold pyRound; split_ifs <;> omega

theorem pyRound_intCast (n : ℤ) : pyRound ((n : ℤ) : α) = n := by
  unfold pyRound
  rw [Int.floor_intCast]
  simp

theorem pyRound_eq_of_bounds {x : α} {n : ℤ} (h1 : (n : α) - 1 / 2 < x)
    (h2 : x < (n : α) + 1 / 2) : pyRound x = n := by
  rcases le_or_lt ((n : α)) x with h | h
  · have hf : ⌊x⌋ = n := Int.floor_eq_iff.mpr ⟨h, by linarith⟩
    have hfrac : x - (⌊x⌋ : α) < 1 / 2 := by rw [hf]; linarith
    unfold pyRound
    rw [if_pos hfrac, hf]
  · have hf : ⌊x⌋ = n - 1 := by
      apply Int.floor_eq_iff.mpr
      constructor
      · push_cast; linarith
      · push_cast; linarith
    have hfrac : 1 / 2 < x - (⌊x⌋ : α) := by rw [hf]; push_cast; linarith
    have hfrac' : ¬ x - (⌊x⌋ : α) < 1 / 2 := by linarith
    unfold pyRound
    rw [if_neg hfrac', if_pos hfrac, hf]
    omega

theorem pyRound_mono {x y : α} (hxy : x ≤ y) : pyRound x ≤ pyRound y := by
  have hfl : ⌊x⌋ ≤ ⌊y⌋ := Int.floor_le_floor hxy
  rcases lt_or_eq_of_le hfl with hlt | heq
  · have h1 := pyRound_le_floor_add_one x
    have h2 := floor_le_pyRound y
    omega
  · have hfr : x - (⌊x⌋ : α) ≤ y - (⌊y⌋ : α) := by rw [← heq]; linarith
    unfold pyRound
    rw [← heq]
    split_ifs <;> first | omega | linarith

theorem pyRound_nonneg {x : α} (hx : 0 ≤ x) : 0 ≤ pyRound x := by
  have h0 : pyRound ((0 : ℤ) : α) = 0 := pyRound_intCast 0
  have := pyRound_mono (x := ((0 : ℤ) : α)) (y := x) (by simpa using hx)
  omega

theorem roundTo_mono (n : ℕ) {x y : α} (hxy : x ≤ y) : roundTo n x ≤ roundTo n y := by
  unfold roundTo
  have hpow : (0 : α) < (10 : α) ^ n := by positivity
  apply div_le_div_of_nonneg_right _ (le_of_lt hpow)
  exact_mod_cast pyRound_mono (mul_le_mul_of_nonneg_right hxy (le_of_lt hpow))

theorem roundTo_nonneg (n : ℕ) {x : α} (hx : 0 ≤ x) : 0 ≤ roundTo n x := by
  unfold roundTo
  have hpow : (0 : α) < (10 : α) ^ n := by positivity
  apply div_nonneg _ (le_of_lt hpow)
  exact_mod_cast pyRound_nonneg (mul_nonneg hx (le_of_lt hpow))

theorem roundTo_intCast (n : ℕ) (k : ℤ) : roundTo n ((k : ℤ) : α) = (k : α) := by
  unfold roundTo
  have hcast : ((k : ℤ) : α) * (10 : α) ^ n = (((k * 10 ^ n : ℤ)) : α) := by
    push_cast; ring
  rw [hcast, pyRound_intCast]
  have hpow : ((10 : α) ^ n) ≠ 0 := by positivity
  push_cast
  field_simp

/-- Evaluation helper: roundTo at a value strictly between two half-integers. -/
theorem roundTo_eq_of_bounds (n : ℕ) (m : ℤ) (x : α) (h1 : (m : α) - 1 / 2 < x * (10 : α) ^ n)
    (h2 : x * (10 : α) ^ n < (m : α) + 1 / 2) : roundTo n x = (m : α) / (10 : α) ^ n := by
  unfold roundTo
  rw [pyRound_eq_of_bounds h1 h2]

/-! ## DemandForecaster.double_exponential_smoothing (forecaster.py, lines 87-121) -/

/-- One Holt update step: from state (level, trend) and the next observed
value, produce the new (level, trend) (forecaster.py lines 110-113). -/
def holtStep (a b : α) (st : α × α) (x : α) : α × α :=
  let newLevel := a * x + (1 - a) * (st.1 + st.2)
  (newLevel, b * (newLevel - st.1) + (1 - b) * st.2)

/-- DemandForecaster.double_exponential_smoothing: Holt's method.  Returns
(forecasts, level, trend).  Data of length < 2 yields the degenerate result
[data[0] or 0] * forecast_periods with trend 0; otherwise the level/trend are
smoothed over the history and forecasts are max 0 (level + i * trend) for
i = 1..forecast_periods. -/
def double_exponential_smoothing (a b : α) (data : List α) (forecast_periods : ℕ) :
    List α × α × α :=
  match data with
  | [] => (List.replicate forecast_periods 0, 0, 0)
  | [x] => (List.replicate forecast_periods x, x, 0)
  | x0 :: x1 :: rest =>
    let st := (x1 :: rest).foldl (holtStep a b) (x0, x1 - x0)
    ((List.range forecast_periods).map (fun i : ℕ => max 0 (st.1 + ((i : α) + 1) * st.2)),
      st.1, st.2)

/-- Reference Holt recurrence exactly as the spec words it (for series of
length at least 2): level initialized to values[0], trend to
values[1] - values[0], then one update per subsequent value with
new_level = alpha*value + (1-alpha)*(level+trend) and
trend = beta*(new_level-level) + (1-beta)*trend. -/
def holtRefState (a b : α) (values : List α) : α × α :=
  match values with
  | v0 :: v1 :: vs =>
    (v1 :: vs).foldl
      (fun st v =>
        (a * v + (1 - a) * (st.1 + st.2),
          b * ((a * v + (1 - a) * (st.1 + st.2)) - st.1) + (1 - b) * st.2))
      (v0, v1 - v0)
  | _ => (0, 0)

omit [FloorRing α] in
theorem holtStep_eq_ref (a b : α) :
    holtStep a b = fun (st : α × α) (v : α) =>
      (a * v + (1 - a) * (st.1 + st.2),
        b * ((a * v + (1 - a) * (st.1 + st.2)) - st.1) + (1 - b) * st.2) := by
  funext st v
  simp [holtStep]

/-- C1: for alpha, beta in [0,1], every non-empty list of (non-negative) demand
values and horizon h >= 1, double_exponential_smoothing returns exactly h
forecasts, each non-negative, and for length >= 2 inputs the k-th forecast
(0-based k) equals max 0 (level + (k+1)*trend) with (level, trend) given by
the Holt recurrence of the spec. -/
theorem C1_smoothing (a b : ℚ) (ha0 : 0 ≤ a) (ha1 : a ≤ 1) (hb0 : 0 ≤ b) (hb1 : b ≤ 1)
    (data : List ℚ) (hne : data ≠ []) (hnn : ∀ x ∈ data, 0 ≤ x)
    (h : ℕ) (hh : 1 ≤ h) :
    (double_exponential_smoothing a b data h).1.length = h ∧
    (∀ f ∈ (double_exponential_smoothing a b data h).1, 0 ≤ f) ∧
    (2 ≤ data.length → ∀ k, k < h →
      (double_exponential_smoothing a b data h).1[k]? =
        some (max 0 ((holtRefState a b data).1 + ((k : ℚ) + 1) * (holtRefState a b data).2))) := by
  cases data with
  | nil => exact absurd rfl hne
  | cons x xs =>
    cases xs with
    | nil =>
      refine ⟨List.length_replicate _ _, ?_, ?_⟩
      · intro f hf
        rw [List.eq_of_mem_replicate hf]
        exact hnn x (List.mem_cons_self x [])
      · intro h2
        simp at h2
    | cons x1 rest =>
      have hfold : (x1 :: rest).foldl (holtStep a b) (x, x1 - x) =
          holtRefState a b (x :: x1 :: rest) := by
        unfold holtRefState
        rw [holtStep_eq_ref]
      refine ⟨?_, ?_, ?_⟩
      · simp only [double_exponential_smoothing, List.length_map, List.length_range]
      · intro f hf
        simp only [double_exponential_smoothing, List.mem_map] at hf
        obtain ⟨i, _, hi⟩ := hf
        rw [← hi]
        exact le_max_left 0 _
      · intro _ k hk
        simp only [double_exponential_smoothing]
        rw [List.getElem?_map, List.getElem?_range hk, hfold]
        rfl

/-- Witness for C1 at alpha = 0.3, beta = 0.1, data = [1, 2], horizon 2. -/
theorem C1_smoothing_witness :
    (double_exponential_smoothing (3/10) (1/10) ([1, 2] : List ℚ) 2).1.length = 2 ∧
    (∀ f ∈ (double_exponential_smoothing (3/10) (1/10) ([1, 2] : List ℚ) 2).1, 0 ≤ f) ∧
    (2 ≤ ([1, 2] : List ℚ).length → ∀ k : ℕ, k < 2 →
      (double_exponential_smoothing (3/10) (1/10) ([1, 2] : List ℚ) 2).1[k]? =
        some (max 0 ((holtRefState (3/10) (1/10) ([1, 2] : List ℚ)).1 +
          ((k : ℚ) + 1) * (holtRefState (3/10) (1/10) ([1, 2] : List ℚ)).2))) :=
  C1_smoothing (3/10) (1/10) (by norm_num) (by norm_num) (by norm_num) (by norm_num)
    [1, 2] (by decide) (by decide) 2 (by norm_num)

/-! ## SeasonalAnalyzer.generate_seasonal_data (forecaster.py, lines 407-484)

All arithmetic here is rational, so this component is embedded over ℚ; the
np.random.uniform draws (12 monthly jitters and the annual growth rate) are
explicit parameters. -/

/-- Base monthly seasonality constants (forecaster.py lines 418-431); the code
adds a uniform(-0.05, 0.05) jitter to each. -/
def monthlyBase : List (String × ℚ) :=
  [("January", 85/100), ("February", 88/100), ("March", 95/100), ("April", 1),
   ("May", 102/100), ("June", 95/100), ("July", 90/100), ("August", 110/100),
   ("September", 125/100), ("October", 115/100), ("November", 120/100),
   ("December", 130/100)]

/-- Fixed weekly pattern constants (forecaster.py lines 445-453), not
randomized. -/
def weeklyPattern : List (String × ℚ) :=
  [("Monday", 105/100), ("Tuesday", 110/100), ("Wednesday", 108/100),
   ("Thursday", 112/100), ("Friday", 115/100), ("Saturday", 75/100),
   ("Sunday", 70/100)]

/-- The monthly indices for a given jitter draw: the i-th month gets the i-th
uniform(-0.05, 0.05) draw added to its base constant.  Dict insertion order
(January..December) is kept as list order. -/
def monthlyIndices (jitter : ℕ → ℚ) : List (String × ℚ) :=
  monthlyBase.enum.map (fun p => (p.2.1, p.2.2 + jitter p.1))

/-- Python's sorted(monthly_indices.items(), key=lambda x: x[1], reverse=True):
a stable descending sort by value; equal values keep insertion order.  A stable
sort for a total preorder is unique, so insertionSort with the relation
"right value ≤ left value" computes it. -/
def sortedMonths (jitter : ℕ → ℚ) : List (String × ℚ) :=
  List.insertionSort (fun p q : String × ℚ => q.2 ≤ p.2) (monthlyIndices jitter)

structure TrendAnalysis where
  annual_growth_rate : ℚ
  trend_direction : String
  deriving DecidableEq

structure SeasonalData where
  seasonality_indices : List (String × ℚ)
  weekly_indices : List (String × ℚ)
  peak_seasons : List (String × ℚ)
  low_seasons : List (String × ℚ)
  trend_analysis : TrendAnalysis
  deriving DecidableEq

/-- SeasonalAnalyzer.generate_seasonal_data.  The years argument is accepted as
in the source (where it is never read).  The recommendation strings, which only
interpolate already-returned values into fixed templates, are not modelled;
seasonal_patterns repeats seasonality_indices and weekly_indices and is not
duplicated here. -/
def generate_seasonal_data (years : ℕ) (jitter : ℕ → ℚ) (yearly_trend : ℚ) : SeasonalData :=
  let sm := sortedMonths jitter
  { seasonality_indices := (monthlyIndices jitter).map (fun p => (p.1, roundTo 2 p.2))
    weekly_indices := weeklyPattern
    peak_seasons := (sm.take 3).map (fun p => (p.1, roundTo 2 p.2))
    low_seasons := (sm.drop (sm.length - 3)).map (fun p => (p.1, roundTo 2 p.2))
    trend_analysis :=
      { annual_growth_rate := roundTo 1 (yearly_trend * 100)
        trend_direction := if yearly_trend > 0 then "increasing" else "decreasing" } }

theorem sortedMonths_length (jitter : ℕ → ℚ) : (sortedMonths jitter).length = 12 := by
  unfold sortedMonths
  rw [List.length_insertionSort]
  unfold monthlyIndices
  rw [List.length_map, List.enum_length]
  rfl

theorem sortedMonths_sorted (jitter : ℕ → ℚ) :
    List.Sorted (fun p q : String × ℚ => q.2 ≤ p.2) (sortedMonths jitter) := by
  unfold sortedMonths
  have htot : IsTotal (String × ℚ) (fun p q => q.2 ≤ p.2) :=
    ⟨fun a b => le_total b.2 a.2⟩
  have htrans : IsTrans (String × ℚ) (fun p q => q.2 ≤ p.2) :=
    ⟨fun a b c h1 h2 => le_trans h2 h1⟩
  exact @List.sorted_insertionSort _ _ _ htot htrans _

theorem sortedMonths_perm (jitter : ℕ → ℚ) :
    (sortedMonths jitter).Perm (monthlyIndices jitter) :=
  List.perm_insertionSort _ _

theorem monthlyIndices_map_fst (jitter : ℕ → ℚ) :
    (monthlyIndices jitter).map Prod.fst = monthlyBase.map Prod.fst := by
  unfold monthlyIndices
  rw [List.map_map]
  show List.map (Prod.fst ∘ Prod.snd) monthlyBase.enum = _
  rw [← List.map_map, List.enum_map_snd]

theorem sortedMonths_fst_nodup (jitter : ℕ → ℚ) :
    ((sortedMonths jitter).map Prod.fst).Nodup := by
  have hbase : (monthlyBase.map Prod.fst).Nodup := by decide
  have hperm : ((monthlyIndices jitter).map Prod.fst).Perm
      ((sortedMonths jitter).map Prod.fst) :=
    (List.Perm.map Prod.fst (sortedMonths_perm jitter)).symm
  exact hperm.nodup (by rw [monthlyIndices_map_fst]; exact hbase)

/-- C7 (amended): peak_seasons are the 3 months with the largest monthly
indices, listed in descending order of index; low_seasons are the 3 months
with the smallest monthly indices, also listed in DESCENDING order of index
(the tail of the descending sort, not ascending as claimed); the two are
disjoint sets of exactly 3 months each. -/
theorem C7_peak_low_amended (y : ℕ) (jitter : ℕ → ℚ) (yt : ℚ) :
    (generate_seasonal_data y jitter yt).peak_seasons =
      ((sortedMonths jitter).take 3).map (fun p => (p.1, roundTo 2 p.2)) ∧
    (generate_seasonal_data y jitter yt).low_seasons =
      ((sortedMonths jitter).drop 9).map (fun p => (p.1, roundTo 2 p.2)) ∧
    (generate_seasonal_data y jitter yt).peak_seasons.length = 3 ∧
    (generate_seasonal_data y jitter yt).low_seasons.length = 3 ∧
    (∀ m ∈ (generate_seasonal_data y jitter yt).peak_seasons.map Prod.fst,
      m ∉ (generate_seasonal_data y jitter yt).low_seasons.map Prod.fst) ∧
    (∀ p ∈ (sortedMonths jitter).take 3, ∀ q ∈ (sortedMonths jitter).drop 3, q.2 ≤ p.2) ∧
    (∀ p ∈ (sortedMonths jitter).take 9, ∀ q ∈ (sortedMonths jitter).drop 9, q.2 ≤ p.2) ∧
    (generate_seasonal_data y jitter yt).peak_seasons.Pairwise (fun p q => q.2 ≤ p.2) ∧
    (generate_seasonal_data y jitter yt).low_seasons.Pairwise (fun p q => q.2 ≤ p.2) := by
  have hlen := sortedMonths_length jitter
  have hpeak : (generate_seasonal_data y jitter yt).peak_seasons =
      ((sortedMonths jitter).take 3).map (fun p => (p.1, roundTo 2 p.2)) := by
    simp only [generate_seasonal_data]
  have hlow : (generate_seasonal_data y jitter yt).low_seasons =
      ((sortedMonths jitter).drop 9).map (fun p => (p.1, roundTo 2 p.2)) := by
    simp only [generate_seasonal_data]
    rw [hlen]
  have hsorted := sortedMonths_sorted jitter
  have hpair3 : ∀ p ∈ (sortedMonths jitter).take 3, ∀ q ∈ (sortedMonths jitter).drop 3,
      q.2 ≤ p.2 := by
    have h := hsorted
    rw [List.Sorted, ← List.take_append_drop 3 (sortedMonths jitter),
      List.pairwise_append] at h
    exact h.2.2
  have hpair9 : ∀ p ∈ (sortedMonths jitter).take 9, ∀ q ∈ (sortedMonths jitter).drop 9,
      q.2 ≤ p.2 := by
    have h := hsorted
    rw [List.Sorted, ← List.take_append_drop 9 (sortedMonths jitter),
      List.pairwise_append] at h
    exact h.2.2
  have hdisj : ∀ m ∈ ((sortedMonths jitter).take 3).map Prod.fst,
      m ∉ ((sortedMonths jitter).drop 9).map Prod.fst := by
    have hnodup := sortedMonths_fst_nodup jitter
    rw [← List.take_append_drop 3 (sortedMonths jitter), List.map_append,
      List.nodup_append] at hnodup
    intro m hm hm9
    refine hnodup.2.2 hm ?_
    have hsub : ((sortedMonths jitter).drop 9).map Prod.fst ⊆
        ((sortedMonths jitter).drop 3).map Prod.fst := by
      apply List.map_subset
      rw [show (9 : ℕ) = 3 + 6 from rfl, ← List.drop_drop]
      exact List.drop_subset _ _
    exact hsub hm9
  have hmfst : ∀ l : List (String × ℚ),
      (l.map (fun p => (p.1, roundTo 2 p.2))).map Prod.fst = l.map Prod.fst := by
    intro l
    rw [List.map_map]
    rfl
  refine ⟨hpeak, hlow, ?_, ?_, ?_, hpair3, hpair9, ?_, ?_⟩
  · rw [hpeak, List.length_map, List.length_take, hlen]
    rfl
  · rw [hlow, List.length_map, List.length_drop, hlen]
  · intro m hm
    rw [hpeak, hmfst] at hm
    rw [hlow, hmfst]
    exact hdisj m hm
  · rw [hpeak]
    have h3 : ((sortedMonths jitter).take 3).Pairwise (fun p q => q.2 ≤ p.2) := by
      have h := hsorted
      rw [List.Sorted, ← List.take_append_drop 3 (sortedMonths jitter),
        List.pairwise_append] at h
      exact h.1
    exact h3.map _ (fun a b hab => roundTo_mono 2 hab)
  · rw [hlow]
    have h9 : ((sortedMonths jitter).drop 9).Pairwise (fun p q => q.2 ≤ p.2) := by
      have h := hsorted
      rw [List.Sorted, ← List.take_append_drop 9 (sortedMonths jitter),
        List.pairwise_append] at h
      exact h.2.1
    exact h9.map _ (fun a b hab => roundTo_mono 2 hab)

/-- C7 counterexample: with all jitters 0 the three lowest months are July
(0.90), February (0.88) and January (0.85), returned in that order, which is
descending by index, not ascending as the claim states. -/
theorem C7_counterexample :
    (generate_seasonal_data 2 (fun _ => 0) (1/20)).low_seasons =
      [("July", 9/10), ("February", 22/25), ("January", 17/20)] ∧
    ¬ (generate_seasonal_data 2 (fun _ => 0) (1/20)).low_seasons.Pairwise
        (fun p q : String × ℚ => p.2 ≤ q.2) := by
  have h : (generate_seasonal_data 2 (fun _ => 0) (1/20)).low_seasons =
      [("July", 9/10), ("February", 22/25), ("January", 17/20)] := by
    norm_num [generate_seasonal_data, sortedMonths, monthlyIndices, monthlyBase,
      List.insertionSort, List.orderedInsert, roundTo, pyRound]
  refine ⟨h, ?_⟩
  rw [h]
  intro hpw
  rw [List.pairwise_cons] at hpw
  have := hpw.1 ("February", 22/25) (by simp)
  norm_num at this

/-- C8: the trend direction is "increasing" for every growth-rate draw in the
support [0.02, 0.08] of uniform(0.02, 0.08); the "decreasing" branch is never
taken. -/
theorem C8_trend_increasing (years : ℕ) (jitter : ℕ → ℚ) (yt : ℚ)
    (hlo : 1/50 ≤ yt) (hhi : yt ≤ 2/25) :
    (generate_seasonal_data years jitter yt).trend_analysis.trend_direction =
      "increasing" := by
  have hpos : yt > 0 := lt_of_lt_of_le (by norm_num) hlo
  simp only [generate_seasonal_data]
  rw [if_pos hpos]

/-- Witness for C8 at years = 2, zero jitters, growth rate 0.05. -/
theorem C8_trend_increasing_witness :
    (generate_seasonal_data 2 (fun _ => 0) (1/20)).trend_analysis.trend_direction =
      "increasing" :=
  C8_trend_increasing 2 (fun _ => 0) (1/20) (by norm_num) (by norm_num)

/-- C9: the years parameter does not influence any field of the result; two
runs with identical random draws and different years are identical. -/
theorem C9_years_unused (y1 y2 : ℕ) (jitter : ℕ → ℚ) (yt : ℚ) :
    generate_seasonal_data y1 jitter yt = generate_seasonal_data y2 jitter yt := rfl

/-! ## StockOptimizer (forecaster.py, lines 235-396)

Square roots appear here, so this component is embedded over ℝ. -/

/-- Z-score table for service levels (lines 261-266); unrecognized levels fall
back to 1.65 (the dict .get default). -/
noncomputable def zServiceLevel (service_level : ℝ) : ℝ :=
  if service_level = 0.90 then 1.28
  else if service_level = 0.95 then 1.65
  else if service_level = 0.99 then 2.33
  else 1.65

/-- StockOptimizer.calculate_safety_stock:
round(z * daily_demand_std * sqrt(lead_time_days), 0). -/
noncomputable def calculate_safety_stock (daily_demand_std : ℝ) (lead_time_days : ℕ)
    (service_level : ℝ) : ℝ :=
  roundTo 0 (zServiceLevel service_level * daily_demand_std * Real.sqrt lead_time_days)

/-- StockOptimizer.calculate_reorder_point:
round(avg_daily_demand * lead_time_days + safety_stock, 0). -/
noncomputable def calculate_reorder_point (avg_daily_demand : ℝ) (lead_time_days : ℕ)
    (safety_stock : ℝ) : ℝ :=
  roundTo 0 (avg_daily_demand * lead_time_days + safety_stock)

/-- StockOptimizer.calculate_eoq (the source defaults, passed explicitly at the
call site in optimize, are ordering_cost = 50, holding_cost_rate = 0.25,
unit_cost = 10). -/
noncomputable def calculate_eoq (annual_demand ordering_cost holding_cost_rate
    unit_cost : ℝ) : ℝ :=
  roundTo 0 (Real.sqrt ((2 * annual_demand * ordering_cost) /
    (unit_cost * holding_cost_rate)))

/-- Python's `x or fallback` applied to an optional float: None and 0.0 are
falsy and select the fallback. -/
noncomputable def pyOrElse (x : Option ℝ) (fallback : ℝ) : ℝ :=
  match x with
  | none => fallback
  | some v => if v = 0 then fallback else v

structure OptimizeResult where
  recommended_reorder_point : ℝ
  recommended_order_quantity : ℝ
  safety_stock : ℝ
  current_status : String
  risk_level : String
  days_of_stock : ℝ
  metrics_avg_daily_demand : ℝ
  metrics_demand_variability : ℝ
  metrics_service_level : ℝ
  metrics_lead_time_days : ℕ

/-- StockOptimizer.optimize.  uniform_draw stands for the np.random.uniform(10, 50)
estimate taken when avg_daily_demand is absent or falsy (0.0).  The suggestion
strings, fixed templates keyed on status interpolating returned values, are not
modelled. -/
noncomputable def optimize (current_stock : ℝ) (lead_time_days : ℕ) (service_level : ℝ)
    (avg_daily_demand demand_std : Option ℝ) (uniform_draw : ℝ) : OptimizeResult :=
  let avg_demand := pyOrElse avg_daily_demand uniform_draw
  let std_demand := pyOrElse demand_std (avg_demand * 0.3)
  let safety_stock := calculate_safety_stock std_demand lead_time_days service_level
  let reorder_point := calculate_reorder_point avg_demand lead_time_days safety_stock
  let annual_demand := avg_demand * 365
  let eoq := calculate_eoq annual_demand 50 0.25 10
  let days_of_stock := if avg_demand > 0 then current_stock / avg_demand else 999
  let sr : String × String :=
    if current_stock ≤ reorder_point * 0.5 then ("critical", "high")
    else if current_stock ≤ reorder_point then ("reorder_needed", "medium")
    else if current_stock ≤ reorder_point * 1.5 then ("adequate", "low")
    else ("overstocked", "low")
  { recommended_reorder_point := reorder_point
    recommended_order_quantity := eoq
    safety_stock := safety_stock
    current_status := sr.1
    risk_level := sr.2
    days_of_stock := roundTo 1 days_of_stock
    metrics_avg_daily_demand := roundTo 2 avg_demand
    metrics_demand_variability := roundTo 2 std_demand
    metrics_service_level := service_level
    metrics_lead_time_days := lead_time_days }

theorem zServiceLevel_pos (sl : ℝ) : 0 < zServiceLevel sl := by
  unfold zServiceLevel
  split_ifs <;> norm_num

theorem calculate_safety_stock_nonneg {std : ℝ} (h : 0 ≤ std) (lt : ℕ) (sl : ℝ) :
    0 ≤ calculate_safety_stock std lt sl :=
  roundTo_nonneg 0 (mul_nonneg (mul_nonneg (zServiceLevel_pos sl).le h)
    (Real.sqrt_nonneg _))

theorem calculate_reorder_point_nonneg {avg ss : ℝ} (h1 : 0 ≤ avg) (h2 : 0 ≤ ss)
    (lt : ℕ) : 0 ≤ calculate_reorder_point avg lt ss :=
  roundTo_nonneg 0 (add_nonneg (mul_nonneg h1 (Nat.cast_nonneg lt)) h2)

/-- Unfolding lemma: the reorder point returned by optimize. -/
theorem optimize_rp (cs : ℝ) (lt : ℕ) (sl : ℝ) (ad ds : Option ℝ) (draw : ℝ) :
    (optimize cs lt sl ad ds draw).recommended_reorder_point =
      calculate_reorder_point (pyOrElse ad draw) lt
        (calculate_safety_stock (pyOrElse ds (pyOrElse ad draw * 0.3)) lt sl) := by
  simp only [optimize]

/-- Unfolding lemma: the status/risk pair is the if-chain on thresholds of the
returned reorder point. -/
theorem optimize_status_risk (cs : ℝ) (lt : ℕ) (sl : ℝ) (ad ds : Option ℝ) (draw : ℝ) :
    ((optimize cs lt sl ad ds draw).current_status,
      (optimize cs lt sl ad ds draw).risk_level) =
      (if cs ≤ (optimize cs lt sl ad ds draw).recommended_reorder_point * 0.5
        then ("critical", "high")
       else if cs ≤ (optimize cs lt sl ad ds draw).recommended_reorder_point
        then ("reorder_needed", "medium")
       else if cs ≤ (optimize cs lt sl ad ds draw).recommended_reorder_point * 1.5
        then ("adequate", "low")
       else ("overstocked", "low")) := by
  simp only [optimize]

/-- Unfolding lemma: days_of_stock as returned (rounded to 1 decimal). -/
theorem optimize_days (cs : ℝ) (lt : ℕ) (sl : ℝ) (ad ds : Option ℝ) (draw : ℝ) :
    (optimize cs lt sl ad ds draw).days_of_stock =
      roundTo 1 (if pyOrElse ad draw > 0 then cs / pyOrElse ad draw else 999) := by
  simp only [optimize]

/-- Unfolding lemma: the metrics fields. -/
theorem optimize_metrics (cs : ℝ) (lt : ℕ) (sl : ℝ) (ad ds : Option ℝ) (draw : ℝ) :
    (optimize cs lt sl ad ds draw).metrics_avg_daily_demand =
      roundTo 2 (pyOrElse ad draw) ∧
    (optimize cs lt sl ad ds draw).metrics_demand_variability =
      roundTo 2 (pyOrElse ds (pyOrElse ad draw * 0.3)) := by
  constructor <;> simp only [optimize]

/-- Unfolding lemma: the safety stock field. -/
theorem optimize_safety (cs : ℝ) (lt : ℕ) (sl : ℝ) (ad ds : Option ℝ) (draw : ℝ) :
    (optimize cs lt sl ad ds draw).safety_stock =
      calculate_safety_stock (pyOrElse ds (pyOrElse ad draw * 0.3)) lt sl := by
  simp only [optimize]

theorem pyOrElse_none (d : ℝ) : pyOrElse none d = d := rfl

theorem pyOrElse_some (v d : ℝ) : pyOrElse (some v) d = if v = 0 then d else v := rfl

theorem pyOrElse_some_ne {v : ℝ} (h : v ≠ 0) (d : ℝ) : pyOrElse (some v) d = v := by
  rw [pyOrElse_some, if_neg h]

theorem pyOrElse_some_zero (d : ℝ) : pyOrElse (some 0) d = d := by
  rw [pyOrElse_some, if_pos rfl]

theorem roundTo_zero_eq_intCast (m : ℤ) (x : α) (h1 : (m : α) - 1 / 2 < x)
    (h2 : x < (m : α) + 1 / 2) : roundTo 0 x = (m : α) := by
  unfold roundTo
  rw [pow_zero, mul_one, pyRound_eq_of_bounds h1 h2, div_one]

/-- C2 (amended): with supplied positive avg_daily_demand and demand_std the
status/risk pair returned by optimize is exactly the threshold if-chain on the
computed reorder point rp; current_stock = 0 always classifies critical/high,
and current_stock = 10*rp classifies overstocked/low PROVIDED rp > 0 (when
rp = 0, current_stock = 10*rp = 0 falls in the critical branch instead). -/
theorem C2_status_amended (cs : ℝ) (lt : ℕ) (sl avg std draw : ℝ)
    (havg : 0 < avg) (hstd : 0 < std) :
    ((optimize cs lt sl (some avg) (some std) draw).current_status,
      (optimize cs lt sl (some avg) (some std) draw).risk_level) =
      (if cs ≤ (optimize cs lt sl (some avg) (some std) draw).recommended_reorder_point * 0.5
        then ("critical", "high")
        else if cs ≤ (optimize cs lt sl (some avg) (some std) draw).recommended_reorder_point
        then ("reorder_needed", "medium")
        else if cs ≤ (optimize cs lt sl (some avg) (some std) draw).recommended_reorder_point * 1.5
        then ("adequate", "low")
        else ("overstocked", "low")) ∧
    (cs = 0 → (optimize cs lt sl (some avg) (some std) draw).current_status = "critical" ∧
      (optimize cs lt sl (some avg) (some std) draw).risk_level = "high") ∧
    (cs = 10 * (optimize cs lt sl (some avg) (some std) draw).recommended_reorder_point →
      0 < (optimize cs lt sl (some avg) (some std) draw).recommended_reorder_point →
      (optimize cs lt sl (some avg) (some std) draw).current_status = "overstocked" ∧
      (optimize cs lt sl (some avg) (some std) draw).risk_level = "low") := by
  have hrp0 : 0 ≤ (optimize cs lt sl (some avg) (some std) draw).recommended_reorder_point := by
    rw [optimize_rp]
    apply calculate_reorder_point_nonneg
    · rw [pyOrElse_some_ne havg.ne' draw]
      exact havg.le
    · apply calculate_safety_stock_nonneg
      rw [pyOrElse_some_ne hstd.ne']
      exact hstd.le
  refine ⟨optimize_status_risk cs lt sl (some avg) (some std) draw, ?_, ?_⟩
  · intro h0
    have h := optimize_status_risk cs lt sl (some avg) (some std) draw
    rw [if_pos (by linarith)] at h
    rw [Prod.mk.injEq] at h
    exact h
  · intro hcs hpos
    have h := optimize_status_risk cs lt sl (some avg) (some std) draw
    rw [if_neg (by intro hc; linarith), if_neg (by intro hc; linarith),
      if_neg (by intro hc; linarith)] at h
    rw [Prod.mk.injEq] at h
    exact h

/-- Witness for C2 at optimize(0, 7, 0.95, 20, 6): current_stock = 0 is
classified critical/high. -/
theorem C2_status_amended_witness :
    (0 : ℝ) < 20 ∧ (0 : ℝ) < 6 ∧
    (optimize 0 7 0.95 (some 20) (some 6) 0).current_status = "critical" ∧
    (optimize 0 7 0.95 (some 20) (some 6) 0).risk_level = "high" :=
  ⟨by norm_num, by norm_num,
    (C2_status_amended 0 7 0.95 20 6 0 (by norm_num) (by norm_num)).2.1 rfl⟩

/-- C2 counterexample: optimize(0, 1, 0.95, 0.4, 0.1) has reorder point 0, so
current_stock = 0 = 10 * reorder_point, yet the status is "critical", not
"overstocked" as the claim predicts for current_stock = 10*rp. -/
theorem C2_counterexample :
    (0 : ℝ) < 2/5 ∧ (0 : ℝ) < 1/10 ∧
    (optimize 0 1 0.95 (some (2/5)) (some (1/10)) 0).recommended_reorder_point = 0 ∧
    (0 : ℝ) = 10 * (optimize 0 1 0.95 (some (2/5)) (some (1/10)) 0).recommended_reorder_point ∧
    (optimize 0 1 0.95 (some (2/5)) (some (1/10)) 0).current_status = "critical" ∧
    "critical" ≠ "overstocked" := by
  have hz : zServiceLevel 0.95 = 1.65 := by
    unfold zServiceLevel
    rw [if_neg (by norm_num), if_pos rfl]
  have hss : calculate_safety_stock (1/10) 1 0.95 = 0 := by
    unfold calculate_safety_stock
    rw [hz, Nat.cast_one, Real.sqrt_one]
    have h := roundTo_zero_eq_intCast 0 (1.65 * (1/10) * 1 : ℝ) (by norm_num) (by norm_num)
    simpa using h
  have hrp : (optimize 0 1 0.95 (some (2/5)) (some (1/10)) 0).recommended_reorder_point = 0 := by
    rw [optimize_rp, pyOrElse_some_ne (by norm_num : (2/5 : ℝ) ≠ 0),
      pyOrElse_some_ne (by norm_num : (1/10 : ℝ) ≠ 0), hss]
    unfold calculate_reorder_point
    rw [Nat.cast_one]
    have h := roundTo_zero_eq_intCast 0 (2/5 * 1 + 0 : ℝ) (by norm_num) (by norm_num)
    simpa using h
  have hsr := optimize_status_risk 0 1 0.95 (some (2/5)) (some (1/10)) 0
  rw [hrp, if_pos (by norm_num : (0:ℝ) ≤ 0 * 0.5), Prod.mk.injEq] at hsr
  exact ⟨by norm_num, by norm_num, hrp, by rw [hrp]; norm_num, hsr.1, by decide⟩

theorem roundTo_one_999 : roundTo 1 (999 : ℝ) = 999 := by
  have h := roundTo_intCast (α := ℝ) 1 999
  simpa using h

/-- C4 (amended): the returned days_of_stock is current_stock / avg_daily_demand
ROUNDED TO 1 DECIMAL when the supplied avg_daily_demand is positive; a supplied
zero is falsy, so avg is replaced by the uniform(10, 50) draw and days_of_stock
is round1(current_stock / draw), not the 999 sentinel; the sentinel (unreachable
through the random fallback) is returned only for a negative supplied avg. -/
theorem C4_days_amended (cs : ℝ) (lt : ℕ) (sl : ℝ) (ds : Option ℝ) (draw avg : ℝ)
    (hdraw : 0 < draw) :
    (0 < avg → (optimize cs lt sl (some avg) ds draw).days_of_stock =
      roundTo 1 (cs / avg)) ∧
    (optimize cs lt sl (some 0) ds draw).days_of_stock = roundTo 1 (cs / draw) ∧
    (avg < 0 → (optimize cs lt sl (some avg) ds draw).days_of_stock = 999) := by
  refine ⟨?_, ?_, ?_⟩
  · intro hpos
    rw [optimize_days, pyOrElse_some_ne hpos.ne', if_pos hpos]
  · rw [optimize_days, pyOrElse_some_zero, if_pos hdraw]
  · intro hneg
    rw [optimize_days, pyOrElse_some_ne hneg.ne, if_neg (by linarith), roundTo_one_999]

/-- Witness for C4 at optimize(100, 7, 0.95, avg=20) with draw 1. -/
theorem C4_days_amended_witness :
    (0 : ℝ) < 1 ∧ (0 : ℝ) < 20 ∧
    (optimize 100 7 0.95 (some 20) (some 6) 1).days_of_stock = roundTo 1 (100 / 20) :=
  ⟨by norm_num, by norm_num,
    (C4_days_amended 100 7 0.95 (some 6) 1 20 (by norm_num)).1 (by norm_num)⟩

/-- C4 counterexample: supplying avg_daily_demand = 0 with draw 20 and stock 100
returns days_of_stock = 5, not the 999 sentinel the claim requires; and for
stock 1, avg 3 the returned value is 0.3, not the exact quotient 1/3. -/
theorem C4_counterexample :
    (optimize 100 7 0.95 (some 0) (some 6) 20).days_of_stock = 5 ∧ (5 : ℝ) ≠ 999 ∧
    (optimize 1 7 0.95 (some 3) (some 6) 20).days_of_stock = 3 / 10 ∧
    (3 / 10 : ℝ) ≠ 1 / 3 := by
  refine ⟨?_, by norm_num, ?_, by norm_num⟩
  · rw [optimize_days, pyOrElse_some_zero, if_pos (by norm_num : (20:ℝ) > 0)]
    have h5 : (100 : ℝ) / 20 = ((5 : ℤ) : ℝ) := by norm_num
    rw [h5, roundTo_intCast]
    norm_num
  · rw [optimize_days, pyOrElse_some_ne (by norm_num : (3:ℝ) ≠ 0),
      if_pos (by norm_num : (3:ℝ) > 0)]
    have h := roundTo_eq_of_bounds 1 3 ((1 : ℝ) / 3) (by norm_num) (by norm_num)
    rw [h]
    norm_num

/-- C6: optimize(0, 7, 0.95, avg=20, std=6) returns safety_stock = 26
(= round(1.65*6*sqrt 7)), reorder_point = 166 (= round(20*7 + 26)),
status critical and risk high. -/
theorem C6_example :
    (optimize 0 7 0.95 (some 20) (some 6) 0).safety_stock = 26 ∧
    (optimize 0 7 0.95 (some 20) (some 6) 0).recommended_reorder_point = 166 ∧
    (optimize 0 7 0.95 (some 20) (some 6) 0).current_status = "critical" ∧
    (optimize 0 7 0.95 (some 20) (some 6) 0).risk_level = "high" := by
  have hz : zServiceLevel 0.95 = 1.65 := by
    unfold zServiceLevel
    rw [if_neg (by norm_num), if_pos rfl]
  have hs7cast : ((7 : ℕ) : ℝ) = (7 : ℝ) := by norm_num
  have hsqrt_lo : (2.64 : ℝ) < Real.sqrt 7 :=
    (Real.lt_sqrt (by norm_num)).mpr (by norm_num)
  have hsqrt_hi : Real.sqrt 7 < (2.65 : ℝ) :=
    (Real.sqrt_lt' (by norm_num)).mpr (by norm_num)
  have hss : calculate_safety_stock 6 7 0.95 = 26 := by
    unfold calculate_safety_stock
    rw [hz, hs7cast]
    have h := roundTo_zero_eq_intCast 26 (1.65 * 6 * Real.sqrt 7 : ℝ)
      (by nlinarith) (by nlinarith)
    simpa using h
  have hpy : pyOrElse (some (20 : ℝ)) 0 = 20 := pyOrElse_some_ne (by norm_num) 0
  have hpys : pyOrElse (some (6 : ℝ)) (pyOrElse (some (20 : ℝ)) 0 * 0.3) = 6 :=
    pyOrElse_some_ne (by norm_num) _
  have hrp : (optimize 0 7 0.95 (some 20) (some 6) 0).recommended_reorder_point = 166 := by
    rw [optimize_rp, hpys, hpy, hss]
    unfold calculate_reorder_point
    rw [hs7cast]
    have h166 : (20 : ℝ) * 7 + 26 = ((166 : ℤ) : ℝ) := by norm_num
    rw [h166, roundTo_intCast]
    norm_num
  have hsafe : (optimize 0 7 0.95 (some 20) (some 6) 0).safety_stock = 26 := by
    rw [optimize_safety, hpys, hss]
  have hsr := optimize_status_risk 0 7 0.95 (some 20) (some 6) 0
  rw [hrp, if_pos (by norm_num : (0:ℝ) ≤ 166 * 0.5), Prod.mk.injEq] at hsr
  exact ⟨hsafe, hrp, hsr.1, hsr.2⟩

/-- C10 (amended): a supplied 0 for avg_daily_demand or demand_std is falsy and
behaves exactly like omitting the argument (the uniform(10, 50) draw replaces
the average, 0.3 * effective average replaces the std), and for such calls the
returned metrics.avg_daily_demand is at least 10, hence strictly positive.  For
arbitrary calls positivity can fail: see the counterexample. -/
theorem C10_zero_discarded (cs : ℝ) (lt : ℕ) (sl : ℝ) (ds ad : Option ℝ) (draw : ℝ)
    (h10 : 10 ≤ draw) (h50 : draw < 50) :
    optimize cs lt sl (some 0) ds draw = optimize cs lt sl none ds draw ∧
    optimize cs lt sl ad (some 0) draw = optimize cs lt sl ad none draw ∧
    10 ≤ (optimize cs lt sl (some 0) ds draw).metrics_avg_daily_demand ∧
    0 < (optimize cs lt sl (some 0) ds draw).metrics_avg_daily_demand ∧
    (optimize cs lt sl (some 0) (some 0) draw).metrics_demand_variability =
      roundTo 2 (draw * 0.3) := by
  have he1 : optimize cs lt sl (some 0) ds draw = optimize cs lt sl none ds draw := by
    simp only [optimize, pyOrElse_some_zero, pyOrElse_none]
  have he2 : optimize cs lt sl ad (some 0) draw = optimize cs lt sl ad none draw := by
    simp only [optimize, pyOrElse_some_zero, pyOrElse_none]
  have h10' : 10 ≤ (optimize cs lt sl (some 0) ds draw).metrics_avg_daily_demand := by
    rw [(optimize_metrics cs lt sl (some 0) ds draw).1, pyOrElse_some_zero]
    have hcast : (10 : ℝ) = ((10 : ℤ) : ℝ) := by norm_num
    calc (10 : ℝ) = roundTo 2 ((10 : ℤ) : ℝ) := by rw [roundTo_intCast]; norm_num
    _ ≤ roundTo 2 draw := roundTo_mono 2 (by exact_mod_cast h10)
  refine ⟨he1, he2, h10', lt_of_lt_of_le (by norm_num) h10', ?_⟩
  rw [(optimize_metrics cs lt sl (some 0) (some 0) draw).2, pyOrElse_some_zero,
    pyOrElse_some_zero]

/-- Witness for C10 with draw 20. -/
theorem C10_zero_discarded_witness :
    (10 : ℝ) ≤ 20 ∧ (20 : ℝ) < 50 ∧
    0 < (optimize 0 7 0.95 (some 0) (some 6) 20).metrics_avg_daily_demand :=
  ⟨by norm_num, by norm_num,
    (C10_zero_discarded 0 7 0.95 (some 6) (some 5) 20 (by norm_num) (by norm_num)).2.2.2.1⟩

/-- C10 counterexample: metrics.avg_daily_demand is NOT strictly positive for
every call: a supplied avg of 0.001 is kept (non-zero, hence truthy) and rounds
to 0.00 in the metrics. -/
theorem C10_counterexample :
    (optimize 0 7 0.95 (some (1/1000)) (some 6) 20).metrics_avg_daily_demand = 0 ∧
    ¬ 0 < (optimize 0 7 0.95 (some (1/1000)) (some 6) 20).metrics_avg_daily_demand := by
  have h : (optimize 0 7 0.95 (some (1/1000)) (some 6) 20).metrics_avg_daily_demand = 0 := by
    rw [(optimize_metrics 0 7 0.95 (some (1/1000)) (some 6) 20).1,
      pyOrElse_some_ne (by norm_num : (1/1000 : ℝ) ≠ 0)]
    have hb := roundTo_eq_of_bounds 2 0 ((1 : ℝ) / 1000) (by norm_num) (by norm_num)
    rw [hb]
    norm_num
  exact ⟨h, by rw [h]; norm_num⟩

/-! ## DemandForecaster.calculate_confidence_intervals (forecaster.py, lines 123-152) -/

/-- Z-score table for confidence levels (line 141); unrecognized levels fall
back to 1.96 (the dict .get default). -/
noncomputable def zConfidence (confidence_level : ℝ) : ℝ :=
  if confidence_level = 0.90 then 1.645
  else if confidence_level = 0.95 then 1.96
  else if confidence_level = 0.99 then 2.576
  else 1.96

/-- The margin for the i-th forecast (0-based, line 147):
z * historical_std * sqrt(1 + i * 0.1); uncertainty grows with the horizon. -/
noncomputable def forecastMargin (z historical_std : ℝ) (i : ℕ) : ℝ :=
  z * historical_std * Real.sqrt (1 + (i : ℝ) * 0.1)

/-- DemandForecaster.calculate_confidence_intervals: one pair
(round2(max 0 (forecast - margin)), round2(forecast + margin)) per forecast,
enumerated from 0. -/
noncomputable def calculate_confidence_intervals (forecasts : List ℝ)
    (historical_std confidence_level : ℝ) : List (ℝ × ℝ) :=
  forecasts.enum.map (fun p =>
    (roundTo 2 (max 0 (p.2 - forecastMargin (zConfidence confidence_level) historical_std p.1)),
      roundTo 2 (p.2 + forecastMargin (zConfidence confidence_level) historical_std p.1)))

theorem zConfidence_pos (cl : ℝ) : 0 < zConfidence cl := by
  unfold zConfidence
  split_ifs <;> norm_num

theorem forecastMargin_nonneg {z std : ℝ} (hz : 0 ≤ z) (hstd : 0 ≤ std) (i : ℕ) :
    0 ≤ forecastMargin z std i :=
  mul_nonneg (mul_nonneg hz hstd) (Real.sqrt_nonneg _)

theorem forecastMargin_mono {z std : ℝ} (hz : 0 ≤ z) (hstd : 0 ≤ std) {i j : ℕ}
    (hij : i ≤ j) : forecastMargin z std i ≤ forecastMargin z std j := by
  unfold forecastMargin
  apply mul_le_mul_of_nonneg_left _ (mul_nonneg hz hstd)
  apply Real.sqrt_le_sqrt
  have hcast : (i : ℝ) ≤ (j : ℝ) := Nat.cast_le.mpr hij
  nlinarith

theorem cci_getElem (forecasts : List ℝ) (std cl : ℝ) (i : ℕ) :
    (calculate_confidence_intervals forecasts std cl)[i]? =
      (forecasts[i]?).map (fun f =>
        (roundTo 2 (max 0 (f - forecastMargin (zConfidence cl) std i)),
          roundTo 2 (f + forecastMargin (zConfidence cl) std i))) := by
  unfold calculate_confidence_intervals
  rw [List.getElem?_map, List.getElem?_enum]
  cases forecasts[i]? <;> rfl

/-- C3 (amended): calculate_confidence_intervals returns one pair per forecast,
the i-th pair is (round2(max 0 (f - m_i)), round2(f + m_i)) with
m_i = z*std*sqrt(1 + 0.1*i); the bounds bracket the ROUNDED forecast
(lower <= round2(f) <= upper) and the unrounded bounds bracket f itself; the
margin is non-decreasing in the horizon index.  The raw forecast f can exceed
the rounded upper bound by up to half a cent: see the counterexample. -/
theorem C3_intervals_amended (forecasts : List ℝ) (std cl : ℝ)
    (hf : ∀ f ∈ forecasts, 0 ≤ f) (hstd : 0 ≤ std) :
    (calculate_confidence_intervals forecasts std cl).length = forecasts.length ∧
    (∀ i : ℕ, ∀ f : ℝ, forecasts[i]? = some f →
      (calculate_confidence_intervals forecasts std cl)[i]? =
        some (roundTo 2 (max 0 (f - forecastMargin (zConfidence cl) std i)),
          roundTo 2 (f + forecastMargin (zConfidence cl) std i)) ∧
      roundTo 2 (max 0 (f - forecastMargin (zConfidence cl) std i)) ≤ roundTo 2 f ∧
      roundTo 2 f ≤ roundTo 2 (f + forecastMargin (zConfidence cl) std i) ∧
      max 0 (f - forecastMargin (zConfidence cl) std i) ≤ f ∧
      f ≤ f + forecastMargin (zConfidence cl) std i) ∧
    (∀ i j : ℕ, i ≤ j →
      forecastMargin (zConfidence cl) std i ≤ forecastMargin (zConfidence cl) std j) := by
  have hz : 0 ≤ zConfidence cl := (zConfidence_pos cl).le
  refine ⟨?_, ?_, fun i j hij => forecastMargin_mono hz hstd hij⟩
  · unfold calculate_confidence_intervals
    rw [List.length_map, List.enum_length]
  · intro i f hif
    have hm : 0 ≤ forecastMargin (zConfidence cl) std i := forecastMargin_nonneg hz hstd i
    have hf0 : 0 ≤ f := hf f (List.getElem?_mem hif)
    have hraw_lo : max 0 (f - forecastMargin (zConfidence cl) std i) ≤ f :=
      max_le hf0 (by linarith)
    refine ⟨?_, roundTo_mono 2 hraw_lo, roundTo_mono 2 (by linarith), hraw_lo, by linarith⟩
    rw [cci_getElem, hif]
    rfl

/-- Witness for C3 at forecasts = [1], std = 0, confidence 0.95. -/
theorem C3_intervals_amended_witness :
    (calculate_confidence_intervals [1] 0 0.95).length = ([1] : List ℝ).length ∧
    roundTo 2 (1 : ℝ) ≤ roundTo 2 (1 + forecastMargin (zConfidence 0.95) 0 0) :=
  ⟨(C3_intervals_amended [1] 0 0.95 (by simp) (le_refl 0)).1,
    ((C3_intervals_amended [1] 0 0.95 (by simp) (le_refl 0)).2.1 0 1 (by simp)).2.2.1⟩

/-- C3 counterexample: for the forecast 0.001 with historical_std = 0 the
returned pair is (0, 0) after rounding, and 0.001 > 0 = upper, so
lower <= forecast <= upper fails as stated. -/
theorem C3_counterexample :
    calculate_confidence_intervals [1/1000] 0 0.95 = [((0 : ℝ), (0 : ℝ))] ∧
    ¬ ((1/1000 : ℝ) ≤ 0) := by
  have hm : forecastMargin (zConfidence 0.95) 0 0 = 0 := by
    unfold forecastMargin
    rw [mul_zero, zero_mul]
  have henum : ([1/1000] : List ℝ).enum = [(0, 1/1000)] := rfl
  have hr : roundTo 2 ((1 : ℝ)/1000) = 0 := by
    have hb := roundTo_eq_of_bounds 2 0 ((1 : ℝ) / 1000) (by norm_num) (by norm_num)
    rw [hb]
    norm_num
  constructor
  · unfold calculate_confidence_intervals
    rw [henum, List.map_cons, List.map_nil, hm]
    norm_num [hr]
  · norm_num

/-! ## DemandForecaster.generate_synthetic_history and forecast
(forecaster.py, lines 31-85 and 154-232)

Calendar model: dates are absolute day numbers (ℤ).  weekday is day mod 7
(Python's date.weekday(), Monday = 0, weekdays are 0..4) and day-of-year a
365-day wrap; the verified claims are independent of this calendar mapping,
which only feeds the sine seasonality term and the weekday multiplier. -/

def weekdayOf (day : ℤ) : ℤ := day % 7

def dayOfYearOf (day : ℤ) : ℤ := day % 365 + 1

structure HistPoint where
  date : ℤ
  demand : ℝ
  day_of_week : ℤ

/-- DemandForecaster.generate_synthetic_history.  today is the call date as a
day number; noise i is the i-th np.random.normal(0, 1) draw, scaled by
noise_std (normal(0, s) = s * normal(0, 1)). -/
noncomputable def generate_synthetic_history (today : ℤ) (noise : ℕ → ℝ) (days : ℕ)
    (base_demand trend seasonality_amplitude noise_std : ℝ)
    (weekly_pattern : Bool) : List HistPoint :=
  (List.range days).map (fun i : ℕ =>
    let date := today - days + i
    let d0 := base_demand + trend * i
    let d1 := if weekly_pattern then
        (if weekdayOf date < 5 then d0 * 1.1 else d0 * 0.8) else d0
    let d2 := d1 + seasonality_amplitude * Real.sin (2 * Real.pi * dayOfYearOf date / 30)
    let d3 := max 0 (d2 + noise_std * noise i)
    { date := date, demand := roundTo 2 d3, day_of_week := weekdayOf date })

/-- np.mean of a list. -/
noncomputable def listMean (l : List ℝ) : ℝ := l.sum / l.length

/-- np.std of a list (population standard deviation: sqrt of the mean squared
deviation from the mean). -/
noncomputable def listStd (l : List ℝ) : ℝ :=
  Real.sqrt (listMean (l.map (fun x => (x - listMean l) ^ 2)))

structure Prediction where
  date : ℤ
  predicted_demand : ℝ
  lower_bound : Option ℝ
  upper_bound : Option ℝ

structure ForecastResult where
  predictions : List Prediction
  mae : ℝ
  mse : ℝ
  r2 : ℝ
  historical_mean : ℝ
  historical_std : ℝ
  trend : ℝ
  days_analyzed : ℕ
  mean_demand : ℝ
  max_demand : ℝ
  min_demand : ℝ

/-- The prediction-assembly loop of DemandForecaster.forecast (lines 196-209):
the i-th forecast becomes a point dated start_date + i with the rounded
forecast and, when intervals are present, the i-th interval bounds (the
indices always exist: intervals has one entry per forecast). -/
noncomputable def buildPredictions (start_date : ℤ) (forecasts : List ℝ)
    (intervals : Option (List (ℝ × ℝ))) : List Prediction :=
  forecasts.enum.map (fun p =>
    { date := start_date + p.1
      predicted_demand := roundTo 2 p.2
      lower_bound := intervals.map (fun iv => (iv.getD p.1 (0, 0)).1)
      upper_bound := intervals.map (fun iv => (iv.getD p.1 (0, 0)).2) })

/-- DemandForecaster.forecast.  alpha/beta are the instance smoothing
parameters (defaults 0.3/0.1); today, noise and r2_draw make the call date and
the random draws explicit (r2_draw is the uniform(0, 0.15) draw).  History is
generated with the source defaults trend = 0.5, amplitude = 20, noise_std = 15,
weekly_pattern = True; dates are carried as day numbers. -/
noncomputable def forecast (alpha beta : ℝ) (today : ℤ) (noise : ℕ → ℝ) (r2_draw : ℝ)
    (forecast_days : ℕ) (include_confidence : Bool) (history_days : ℕ)
    (base_demand : ℝ) : ForecastResult :=
  let history := generate_synthetic_history today noise history_days base_demand
    0.5 20 15 true
  let demand_values := history.map (fun h => h.demand)
  let historical_std := listStd demand_values
  let historical_mean := listMean demand_values
  let fr := double_exponential_smoothing alpha beta demand_values forecast_days
  let intervals : Option (List (ℝ × ℝ)) :=
    if include_confidence then
      some (calculate_confidence_intervals fr.1 historical_std 0.95) else none
  let predictions := buildPredictions (today + 1) fr.1 intervals
  let mae := historical_std * 0.7
  { predictions := predictions
    mae := roundTo 2 mae
    mse := roundTo 2 (mae ^ 2)
    r2 := roundTo 3 (0.75 + r2_draw)
    historical_mean := roundTo 2 historical_mean
    historical_std := roundTo 2 historical_std
    trend := roundTo 4 fr.2.2
    days_analyzed := history_days
    mean_demand := roundTo 2 historical_mean
    max_demand := roundTo 2 (demand_values.foldl max (demand_values.headD 0))
    min_demand := roundTo 2 (demand_values.foldl min (demand_values.headD 0)) }

theorem gsh_length (today : ℤ) (noise : ℕ → ℝ) (days : ℕ) (b t s ns : ℝ) (wp : Bool) :
    (generate_synthetic_history today noise days b t s ns wp).length = days := by
  unfold generate_synthetic_history
  rw [List.length_map, List.length_range]

theorem listStd_nonneg (l : List ℝ) : 0 ≤ listStd l := Real.sqrt_nonneg _

omit [FloorRing α] in
theorem des_length (a b : α) (data : List α) (fp : ℕ) :
    (double_exponential_smoothing a b data fp).1.length = fp := by
  rcases data with _ | ⟨x0, _ | ⟨x1, rest⟩⟩ <;>
    simp [double_exponential_smoothing]

omit [FloorRing α] in
theorem des_nonneg (a b : α) (data : List α) (fp : ℕ) (hlen : 2 ≤ data.length) :
    ∀ f ∈ (double_exponential_smoothing a b data fp).1, 0 ≤ f := by
  rcases data with _ | ⟨x0, _ | ⟨x1, rest⟩⟩
  · simp at hlen
  · simp at hlen
  · intro f hf
    simp only [double_exponential_smoothing, List.mem_map] at hf
    obtain ⟨i, _, hi⟩ := hf
    rw [← hi]
    exact le_max_left 0 _

theorem buildPredictions_length (s : ℤ) (fs : List ℝ) (iv : Option (List (ℝ × ℝ))) :
    (buildPredictions s fs iv).length = fs.length := by
  unfold buildPredictions
  rw [List.length_map, List.enum_length]

theorem buildPredictions_getElem (s : ℤ) (fs : List ℝ) (iv : Option (List (ℝ × ℝ)))
    (i : ℕ) :
    (buildPredictions s fs iv)[i]? = (fs[i]?).map (fun f =>
      { date := s + i
        predicted_demand := roundTo 2 f
        lower_bound := iv.map (fun l => (l.getD i (0, 0)).1)
        upper_bound := iv.map (fun l => (l.getD i (0, 0)).2) : Prediction }) := by
  unfold buildPredictions
  rw [List.getElem?_map, List.getElem?_enum]
  cases fs[i]? <;> rfl

/-- C5: forecast(forecast_days = 5, include_confidence = True, history_days = 10,
base_demand = 100) returns exactly 5 predictions; the i-th prediction is dated
today + 1 + i (5 consecutive days starting tomorrow), and each prediction has
both bounds present with lower_bound <= predicted_demand <= upper_bound.  Holds
for every call date, every noise-draw sequence and every r2 draw. -/
theorem C5_forecast_example (alpha beta : ℝ) (today : ℤ) (noise : ℕ → ℝ) (r2_draw : ℝ) :
    (forecast alpha beta today noise r2_draw 5 true 10 100).predictions.length = 5 ∧
    (∀ i : ℕ, ∀ p : Prediction,
      (forecast alpha beta today noise r2_draw 5 true 10 100).predictions[i]? = some p →
      p.date = today + 1 + (i : ℤ) ∧
      ∃ lb ub : ℝ, p.lower_bound = some lb ∧ p.upper_bound = some ub ∧
        lb ≤ p.predicted_demand ∧ p.predicted_demand ≤ ub) := by
  have hpred : (forecast alpha beta today noise r2_draw 5 true 10 100).predictions =
      buildPredictions (today + 1)
        (double_exponential_smoothing alpha beta
          ((generate_synthetic_history today noise 10 100 0.5 20 15 true).map
            (fun h => h.demand)) 5).1
        (some (calculate_confidence_intervals
          (double_exponential_smoothing alpha beta
            ((generate_synthetic_history today noise 10 100 0.5 20 15 true).map
              (fun h => h.demand)) 5).1
          (listStd ((generate_synthetic_history today noise 10 100 0.5 20 15 true).map
            (fun h => h.demand))) 0.95)) := by
    simp only [forecast, if_true]
  have hdvlen : ((generate_synthetic_history today noise 10 100 0.5 20 15 true).map
      (fun h => h.demand)).length = 10 := by
    rw [List.length_map, gsh_length]
  have hflen : (double_exponential_smoothing alpha beta
      ((generate_synthetic_history today noise 10 100 0.5 20 15 true).map
        (fun h => h.demand)) 5).1.length = 5 := des_length _ _ _ _
  constructor
  · rw [hpred, buildPredictions_length, hflen]
  · intro i p hp
    rw [hpred, buildPredictions_getElem] at hp
    cases hfr : (double_exponential_smoothing alpha beta
        ((generate_synthetic_history today noise 10 100 0.5 20 15 true).map
          (fun h => h.demand)) 5).1[i]? with
    | none =>
      rw [hfr] at hp
      simp at hp
    | some f =>
      rw [hfr] at hp
      simp only [Option.map_some'] at hp
      replace hp := Option.some.inj hp
      subst hp
      have hm : 0 ≤ forecastMargin (zConfidence 0.95)
          (listStd ((generate_synthetic_history today noise 10 100 0.5 20 15 true).map
            (fun h => h.demand))) i :=
        forecastMargin_nonneg (zConfidence_pos 0.95).le (listStd_nonneg _) i
      have hf0 : 0 ≤ f :=
        des_nonneg alpha beta _ 5 (by rw [hdvlen]; norm_num) f (List.getElem?_mem hfr)
      have hiv : (calculate_confidence_intervals
          (double_exponential_smoothing alpha beta
            ((generate_synthetic_history today noise 10 100 0.5 20 15 true).map
              (fun h => h.demand)) 5).1
          (listStd ((generate_synthetic_history today noise 10 100 0.5 20 15 true).map
            (fun h => h.demand))) 0.95)[i]? =
          some (roundTo 2 (max 0 (f - forecastMargin (zConfidence 0.95)
              (listStd ((generate_synthetic_history today noise 10 100 0.5 20 15 true).map
                (fun h => h.demand))) i)),
            roundTo 2 (f + forecastMargin (zConfidence 0.95)
              (listStd ((generate_synthetic_history today noise 10 100 0.5 20 15 true).map
                (fun h => h.demand))) i)) := by
        rw [cci_getElem, hfr]
        rfl
      have hgetD : (calculate_confidence_intervals
          (double_exponential_smoothing alpha beta
            ((generate_synthetic_history today noise 10 100 0.5 20 15 true).map
              (fun h => h.demand)) 5).1
          (listStd ((generate_synthetic_history today noise 10 100 0.5 20 15 true).map
            (fun h => h.demand))) 0.95).getD i (0, 0) =
          (roundTo 2 (max 0 (f - forecastMargin (zConfidence 0.95)
              (listStd ((generate_synthetic_history today noise 10 100 0.5 20 15 true).map
                (fun h => h.demand))) i)),
            roundTo 2 (f + forecastMargin (zConfidence 0.95)
              (listStd ((generate_synthetic_history today noise 10 100 0.5 20 15 true).map
                (fun h => h.demand))) i)) := by
        rw [List.getD_eq_getElem?_getD, hiv]
        rfl
      refine ⟨rfl, _, _, rfl, rfl, ?_, ?_⟩
      · simp only [hgetD]
        exact roundTo_mono 2 (max_le hf0 (by linarith))
      · simp only [hgetD]
        exact roundTo_mono 2 (by linarith)

end ERP
